import Mathlib

/-
Verification of the catprinter banner-dimensioning scripts.

The repository consists of browser verification scripts for a thermal
banner printing application.  `verify_fix_dimensions.py` contains an
executable simulation (`MockElement`) of the browser layout logic behind
the banner dimension fix; it is embedded below exactly as written.  The
rendering engine itself (dimension policy, connection state machine,
render debouncer) is exercised only through the browser by
`verification/verify_banner.py` and `reproduce_issue.py`; those
components are modelled from the specification, as marked on each
definition.
-/

namespace Catprinter

/-- A CSS style dictionary, as the Python `dict` of string keys and
string values assigned to `MockElement.style`. -/
def Style := List (String × String)

/-- `style.get(key)`: first matching value, `none` when the key is
absent, mirroring Python `dict.get`. -/
def Style.get : Style → String → Option String
  | [], _ => none
  | (k, v) :: rest, key => if k = key then some v else Style.get rest key

/-- The `rect` dictionary of `MockElement`: measured width and height in
pixels. -/
structure Rect where
  width : Nat
  height : Nat
deriving DecidableEq, Repr

/-- Embedding of `MockElement` from `verify_fix_dimensions.py`. -/
structure MockElement where
  tag : String
  style : Style
  inner_html : String
  rect : Rect

/-- `MockElement.__init__(tag, style)`: empty content, zero rect. -/
def MockElement.init (tag : String) (style : Style) : MockElement :=
  { tag := tag, style := style, inner_html := "", rect := ⟨0, 0⟩ }

/-- Embedding of `MockElement.set_content` from
`verify_fix_dimensions.py`: stores the text, simulates browser layout
(width is text length times 10 only under `inline-block` with
`fit-content`; the `auto` branch is a no-op), then sets the height to
the font size 20. -/
def MockElement.set_content (e : MockElement) (text : String) : MockElement :=
  let e1 : MockElement := { e with inner_html := text }
  let e2 : MockElement :=
    if e1.style.get "display" = some "inline-block" then
      if e1.style.get "width" = some "fit-content" then
        { e1 with rect := { e1.rect with width := text.length * 10 } }
      else
        e1
    else
      e1
  { e2 with rect := { e2.rect with height := 20 } }

/-- The `temp_container` style built in `test_logic` of
`verify_fix_dimensions.py` (the FIX: `inline-block` with
`fit-content`). -/
def temp_container_style : Style :=
  [("position", "absolute"), ("top", "-9999px"), ("left", "-9999px"),
   ("display", "inline-block"), ("width", "fit-content"),
   ("whiteSpace", "pre")]

/-- The `temp_container` element of `test_logic`. -/
def temp_container : MockElement :=
  MockElement.init "div" temp_container_style

/-- Folding a sequence of `set_content` calls over an element: the
reachable states of a `MockElement`. -/
def applyAll (e : MockElement) (texts : List String) : MockElement :=
  texts.foldl MockElement.set_content e

/-- Modelled from the spec: the `Orientation` enum of the data model
(portrait or landscape); the application source holding it is not in
the repository, only the browser scripts that drive it. -/
inductive Orientation where
  | portrait
  | landscape
deriving DecidableEq, Repr

/-- Modelled from the spec: a `ContentBox`, the unconstrained natural
size of the content in pixels. -/
structure ContentBox where
  width : Nat
  height : Nat
deriving DecidableEq, Repr

/-- Modelled from the spec: `CanvasDimensions`, the final canvas size.
`width` is the fixed print-head axis, `height` the feed axis (the
canvas `height` attribute checked by `verify_banner.py`). -/
structure CanvasDimensions where
  width : Nat
  height : Nat
deriving DecidableEq, Repr

/-- Modelled from the spec: the content's natural extent along the
feed direction.  Portrait: the content height; landscape: the
content's natural extent along the text's reading direction, its
width. -/
def feedExtent (box : ContentBox) (o : Orientation) : Nat :=
  match o with
  | .portrait => box.height
  | .landscape => box.width

/-- Modelled from the spec: `OrientationDimensionPolicy.resolve`, whose
application source is not in the repository.  One axis is always
pinned to `headAxisPx`; the feed axis is the content extent clamped to
`[minFeedPx, maxFeedPx]`: values below `minFeedPx` round up, values
above `maxFeedPx` are truncated and flagged with a warning (the `Bool`
component) rather than raising an exception, so dimensions are always
produced. -/
def resolve (box : ContentBox) (o : Orientation)
    (headAxisPx minFeedPx maxFeedPx : Nat) : CanvasDimensions × Bool :=
  let feed := feedExtent box o
  if maxFeedPx < feed then
    ({ width := headAxisPx, height := maxFeedPx }, true)
  else if feed < minFeedPx then
    ({ width := headAxisPx, height := minFeedPx }, false)
  else
    ({ width := headAxisPx, height := feed }, false)

/-- The measured content box taken from a `MockElement` rect. -/
def measuredBox (e : MockElement) : ContentBox :=
  ⟨e.rect.width, e.rect.height⟩

/-- Modelled from the spec: the `ConnectionState` enum of
`PrinterConnectionStateMachine`; the application source is not in the
repository, `reproduce_issue.py` only observes the status text. -/
inductive ConnectionState where
  | idle
  | connecting
  | connected
  | failed
deriving DecidableEq, Repr

/-- Modelled from the spec: `PrinterConnectionStateMachine.connect`.
It is a pure transition on the state alone, taking no transport
result: from `idle` or `failed` it moves to `connecting` (observable
immediately, before any asynchronous transport work resolves); from
any other state it leaves the state unchanged and reports a
precondition violation (second component `true`) instead of
crashing. -/
def connect (s : ConnectionState) : ConnectionState × Bool :=
  match s with
  | .idle => (.connecting, false)
  | .failed => (.connecting, false)
  | s => (s, true)

/-- Modelled from the spec: the debounce quiet window of
`RenderCoordinator`, about 300 ms, matching the tested wait. -/
def debounceWindowMs : Nat := 300

/-- Modelled from the spec: the commits produced by the
`RenderCoordinator` trailing debounce for a time-ordered list of edits
`(arrival time, content)`.  An edit's pending render is cancelled and
superseded when the next edit arrives within the quiet `window`; an
edit commits only when no newer edit arrives within `window`, and the
last edit always commits after the quiet period. -/
def debounceCommits (window : Nat) : List (Nat × String) → List (Nat × String)
  | [] => []
  | [e] => [e]
  | e :: f :: rest =>
    if f.1 - e.1 < window then
      debounceCommits window (f :: rest)
    else
      e :: debounceCommits window (f :: rest)

/-- The style condition under which `set_content` measures the text's
own natural width: `inline-block` display with `fit-content` width. -/
def fitMeasured (s : Style) : Prop :=
  s.get "display" = some "inline-block" ∧ s.get "width" = some "fit-content"

instance (s : Style) : Decidable (fitMeasured s) := by
  unfold fitMeasured
  exact instDecidableAnd

theorem style_set_content (e : MockElement) (t : String) :
    (e.set_content t).style = e.style := by
  unfold MockElement.set_content
  dsimp only
  split_ifs <;> rfl

theorem rect_set_content (e : MockElement) (t : String) :
    (e.set_content t).rect
      = ⟨if fitMeasured e.style then t.length * 10 else e.rect.width, 20⟩ := by
  unfold MockElement.set_content fitMeasured
  dsimp only
  by_cases h1 : e.style.get "display" = some "inline-block" <;>
    by_cases h2 : e.style.get "width" = some "fit-content" <;>
    simp [h1, h2]

theorem applyAll_style (ts : List String) (e : MockElement) :
    (applyAll e ts).style = e.style := by
  induction ts generalizing e with
  | nil => rfl
  | cons t ts ih =>
    show (applyAll (e.set_content t) ts).style = e.style
    rw [ih, style_set_content]

theorem applyAll_width_zero (ts : List String) (e : MockElement)
    (hs : ¬ fitMeasured e.style) (hw : e.rect.width = 0) :
    (applyAll e ts).rect.width = 0 := by
  induction ts generalizing e with
  | nil => exact hw
  | cons t ts ih =>
    show (applyAll (e.set_content t) ts).rect.width = 0
    refine ih (e.set_content t) ?_ ?_
    · rw [style_set_content]; exact hs
    · rw [rect_set_content]
      simp [hs, hw]

/-- C3: for every text string, measuring it under the unconstrained
`fit-content` inline-block style yields a width that is the text's own
natural extent, 10 px per character (`width = 10 * len(text)`), never
an ambient width inherited from the parent — the result does not
mention the element's prior rect at all. -/
theorem c3_fit_content_measures_natural_width (e : MockElement) (text : String)
    (hd : e.style.get "display" = some "inline-block")
    (hw : e.style.get "width" = some "fit-content") :
    (e.set_content text).rect.width = text.length * 10 := by
  rw [rect_set_content]
  simp [fitMeasured, hd, hw]

/-- C3 witness: the `test_logic` container measuring "Short" yields
its natural width, 5 characters times 10 px. -/
theorem c3_fit_content_measures_natural_width_witness :
    (temp_container.set_content "Short").rect.width = "Short".length * 10 :=
  c3_fit_content_measures_natural_width temp_container "Short" rfl rfl

/-- C10: for every element (any style) and every text, `set_content`
always sets the measured rect height to the constant 20 (one line
height); the height never scales with the text or the style. -/
theorem c10_height_always_one_line (e : MockElement) (text : String) :
    (e.set_content text).rect.height = 20 := by
  rw [rect_set_content]

/-- C5 counterexample: for the empty string, `set_content` on the fix
container produces a rect whose width is 0, so the result is NOT a box
with non-zero dimensions in both axes (at least one line height of 20
in both axes), contrary to the claim. -/
theorem c5_empty_zero_width_counterexample :
    (temp_container.set_content "").rect.width = 0 ∧
    ¬ (20 ≤ (temp_container.set_content "").rect.width) := by
  constructor <;> decide

/-- C5 amended: if the content is empty, measurement still succeeds
(`set_content` is total and returns a rect), the height is one line
height 20 (non-zero), but the width is 0: the box is zero-sized along
the inline axis rather than a minimum one-line box in both axes. -/
theorem c5_empty_gives_line_height_zero_width :
    (temp_container.set_content "").rect.height = 20 ∧
    (temp_container.set_content "").rect.width = 0 := by
  constructor <;> decide

/-- C4: measurement is deterministic — for any two histories of
`set_content` calls on elements created with the same tag and style,
calling `set_content` with the same text yields the identical rect
(width and height); the model takes no ambient input such as window
size, scroll position, or device pixel ratio. -/
theorem c4_measurement_deterministic (tag : String) (style : Style)
    (ts us : List String) (text : String) :
    ((applyAll (MockElement.init tag style) ts).set_content text).rect
      = ((applyAll (MockElement.init tag style) us).set_content text).rect := by
  have hs1 := applyAll_style ts (MockElement.init tag style)
  have hs2 := applyAll_style us (MockElement.init tag style)
  rw [rect_set_content, rect_set_content, hs1, hs2]
  by_cases h : fitMeasured style
  · simp [MockElement.init, h]
  · have h1 := applyAll_width_zero ts (MockElement.init tag style) (by simpa [MockElement.init] using h) rfl
    have h2 := applyAll_width_zero us (MockElement.init tag style) (by simpa [MockElement.init] using h) rfl
    simp only [MockElement.init] at h1 h2
    simp [MockElement.init, h, h1, h2]

/-- C2: for every content box, orientation, and dimension bounds, the
canvas's fixed print-head axis (its width attribute) equals
`headAxisPx`; at the head size 384 the width attribute is 384, and no
content length or viewport quantity enters the computation. -/
theorem c2_fixed_axis_is_head_axis (box : ContentBox) (o : Orientation)
    (headAxisPx minFeedPx maxFeedPx : Nat) :
    (resolve box o headAxisPx minFeedPx maxFeedPx).1.width = headAxisPx ∧
    (resolve box o 384 minFeedPx maxFeedPx).1.width = 384 := by
  unfold resolve
  constructor <;> (dsimp only; split_ifs <;> rfl)

/-- C1: measuring the 5-character text "Short" with the fix container
(`fit-content` inline-block) yields width 50 px, below the 100 px
check of `test_logic`, and the canvas feed-axis height accepted by the
dimension policy stays below 200 px for any sane minimum feed bound
(below 200 px). -/
theorem c1_short_landscape_compact (minFeedPx maxFeedPx : Nat)
    (h : minFeedPx < 200) :
    (temp_container.set_content "Short").rect.width = 50 ∧
    (temp_container.set_content "Short").rect.width < 100 ∧
    (resolve (measuredBox (temp_container.set_content "Short"))
        .landscape 384 minFeedPx maxFeedPx).1.height < 200 := by
  have hb : measuredBox (temp_container.set_content "Short") = ⟨50, 20⟩ := by decide
  refine ⟨by decide, by decide, ?_⟩
  rw [hb]
  unfold resolve feedExtent
  dsimp only
  split_ifs with h1 h2 <;> dsimp only <;> omega

/-- C1 witness: with the concrete bounds 20 and 3840 the measured width
is 50, below 100, and the resolved feed axis is below 200. -/
theorem c1_short_landscape_compact_witness :
    (temp_container.set_content "Short").rect.width = 50 ∧
    (temp_container.set_content "Short").rect.width < 100 ∧
    (resolve (measuredBox (temp_container.set_content "Short"))
        .landscape 384 20 3840).1.height < 200 :=
  c1_short_landscape_compact 20 3840 (by decide)

/-- C6: for every content box, orientation, and bounds with
`minFeedPx ≤ maxFeedPx`, the resolved feed axis lies in
`[minFeedPx, maxFeedPx]`; extents below the minimum round up to it,
and extents above the maximum are truncated to it with the warning
flag set (no exception — dimensions are still produced). -/
theorem c6_feed_axis_clamped (box : ContentBox) (o : Orientation)
    (headAxisPx minFeedPx maxFeedPx : Nat) (h : minFeedPx ≤ maxFeedPx) :
    minFeedPx ≤ (resolve box o headAxisPx minFeedPx maxFeedPx).1.height ∧
    (resolve box o headAxisPx minFeedPx maxFeedPx).1.height ≤ maxFeedPx ∧
    (feedExtent box o < minFeedPx →
      (resolve box o headAxisPx minFeedPx maxFeedPx).1.height = minFeedPx) ∧
    (maxFeedPx < feedExtent box o →
      (resolve box o headAxisPx minFeedPx maxFeedPx).1.height = maxFeedPx ∧
      (resolve box o headAxisPx minFeedPx maxFeedPx).2 = true) := by
  unfold resolve
  dsimp only
  split_ifs with h1 h2 <;> dsimp only
  · exact ⟨by omega, by omega, fun hlt => by omega, fun hgt => ⟨rfl, rfl⟩⟩
  · exact ⟨by omega, by omega, fun hlt => rfl, fun hgt => absurd hgt h1⟩
  · exact ⟨by omega, by omega, fun hlt => by omega, fun hgt => absurd hgt h1⟩

/-- C6 witness: an oversized content box (feed extent 5000) in
portrait with bounds 20 and 3840 is clamped into the bounds, rounded
or truncated as required, with the warning flag set. -/
theorem c6_feed_axis_clamped_witness :
    20 ≤ (resolve ⟨384, 5000⟩ .portrait 384 20 3840).1.height ∧
    (resolve ⟨384, 5000⟩ .portrait 384 20 3840).1.height ≤ 3840 ∧
    (feedExtent ⟨384, 5000⟩ .portrait < 20 →
      (resolve ⟨384, 5000⟩ .portrait 384 20 3840).1.height = 20) ∧
    (3840 < feedExtent ⟨384, 5000⟩ .portrait →
      (resolve ⟨384, 5000⟩ .portrait 384 20 3840).1.height = 3840 ∧
      (resolve ⟨384, 5000⟩ .portrait 384 20 3840).2 = true) :=
  c6_feed_axis_clamped ⟨384, 5000⟩ .portrait 384 20 3840 (by decide)

/-- C7: `connect()` from `idle` or `failed` moves the state to
`connecting`; the transition is a pure function of the state taking no
transport result, so the new state is observable before any
asynchronous transport outcome exists. -/
theorem c7_connect_moves_to_connecting (s : ConnectionState)
    (h : s = ConnectionState.idle ∨ s = ConnectionState.failed) :
    (connect s).1 = ConnectionState.connecting := by
  rcases h with h | h <;> subst h <;> rfl

/-- C7 witness: `connect` from `idle` yields `connecting`. -/
theorem c7_connect_moves_to_connecting_witness :
    (connect ConnectionState.idle).1 = ConnectionState.connecting :=
  c7_connect_moves_to_connecting ConnectionState.idle (Or.inl rfl)

/-- C8: `connect()` in any state other than `idle` or `failed` leaves
the state unchanged (in particular `connecting` stays `connecting`)
and reports a precondition violation instead of crashing. -/
theorem c8_connect_invalid_state_noop (s : ConnectionState)
    (h1 : s ≠ ConnectionState.idle) (h2 : s ≠ ConnectionState.failed) :
    (connect s).1 = s ∧ (connect s).2 = true := by
  cases s
  · exact absurd rfl h1
  · exact ⟨rfl, rfl⟩
  · exact ⟨rfl, rfl⟩
  · exact absurd rfl h2

/-- C8 witness: `connect` while already `connecting` is a no-op with
the violation reported. -/
theorem c8_connect_invalid_state_noop_witness :
    (connect ConnectionState.connecting).1 = ConnectionState.connecting ∧
    (connect ConnectionState.connecting).2 = true :=
  c8_connect_invalid_state_noop ConnectionState.connecting
    (by decide) (by decide)

/-- C9: for any non-empty burst of time-ordered edits in which every
edit arrives within the debounce quiet window of its predecessor,
exactly one render is committed and it is the final edit — no
superseded (stale) edit is ever committed. -/
theorem c9_burst_commits_final_only (window : Nat)
    (edits : List (Nat × String)) (hne : edits ≠ [])
    (hburst : edits.Chain' (fun a b => b.1 - a.1 < window)) :
    debounceCommits window edits = [edits.getLast hne] := by
  induction edits with
  | nil => exact absurd rfl hne
  | cons e rest ih =>
    cases rest with
    | nil => rfl
    | cons f rest2 =>
      have hgap : f.1 - e.1 < window := (List.chain'_cons.mp hburst).1
      have htail : (f :: rest2).Chain' (fun a b => b.1 - a.1 < window) :=
        (List.chain'_cons.mp hburst).2
      have hne2 : f :: rest2 ≠ [] := List.cons_ne_nil f rest2
      rw [debounceCommits, if_pos hgap, ih hne2 htail,
        List.getLast_cons hne2]

/-- C9 witness: three edits 0 ms, 100 ms and 250 ms apart under a
300 ms window commit exactly one render, the final text "Short". -/
theorem c9_burst_commits_final_only_witness :
    debounceCommits 300 [(0, "S"), (100, "Sh"), (250, "Short")]
      = [(250, "Short")] := by
  have h := c9_burst_commits_final_only 300
    [(0, "S"), (100, "Sh"), (250, "Short")] (by decide)
    (by simp [List.chain'_cons, List.chain'_singleton])
  simpa using h

end Catprinter
